import Mathlib

/-!
Verification of the UE5-MCP plugin core (MCPClient.cpp / MCPAssetManager.cpp)
against its natural-language specification.

The C++ sources are shallowly embedded: Unreal JSON documents become an
inductive value type, the HTTP stack's completion callback arguments become an
explicit `HttpExchange` environment, and every continuation-passing operation
is translated to a function that returns the list of continuation invocations
it performs (in order), together with the HTTP request it issues.  Engine
library calls that are not part of this repository (JSON field accessors,
`FString` path join, the HTTP module) are modelled from their documented
behaviour, noted at each definition.
-/

namespace MCP

/-- Model of `FJsonValue` (Unreal's JSON DOM).  Numbers are modelled as
integers: every number the plugin reads (`server.port`) is an integer per the
configuration schema, and no arithmetic is performed on them. -/
inductive FJsonValue where
  | null : FJsonValue
  | boolean : Bool → FJsonValue
  | number : Int → FJsonValue
  | string : String → FJsonValue
  | array : List FJsonValue → FJsonValue
  | object : List (String × FJsonValue) → FJsonValue
deriving Repr

/-- Model of `FJsonObject`: an ordered field map (Unreal's `TMap` preserves
insertion order; the plugin only ever inserts fresh keys). -/
def FJsonObj : Type := List (String × FJsonValue)

/-- Field lookup, as performed by `FJsonObject::Values.Find`. -/
def findField : FJsonObj → String → Option FJsonValue
  | [], _ => none
  | (k, v) :: rest, name => if k = name then some v else findField rest name

/-- Model of `FJsonObject::GetStringField`: returns the string value of the
field when it exists and is a string; on a missing field or a field of another
type the engine logs a warning and returns the empty string. -/
def GetStringField (obj : FJsonObj) (name : String) : String :=
  match findField obj name with
  | some (FJsonValue.string s) => s
  | _ => ""

/-- Model of `FJsonObject::GetIntegerField`: the numeric value of the field
when it exists and is a number; on a missing field or a field of another type
the engine logs a warning and returns 0. -/
def GetIntegerField (obj : FJsonObj) (name : String) : Int :=
  match findField obj name with
  | some (FJsonValue.number n) => n
  | _ => 0

/-- Model of `FJsonObject::TryGetObjectField`: `some` exactly when the field
exists and is a JSON object. -/
def TryGetObjectField (obj : FJsonObj) (name : String) : Option FJsonObj :=
  match findField obj name with
  | some (FJsonValue.object o) => some o
  | _ => none

/-- Model of the `FHttpResponsePtr` handed to the completion callback.
`responseCode` is `IHttpResponse::GetResponseCode()`; `parsedBody` abstracts
the response content as its JSON parse result: `some o` exactly when
`FJsonSerializer::Deserialize` of `GetContentAsString()` succeeds with a
top-level JSON object `o`, and `none` otherwise. -/
structure FHttpResponse where
  responseCode : Int
  parsedBody : Option FJsonObj

/-- Environment of one HTTP exchange: the arguments the HTTP stack passes to
the bound `OnProcessRequestComplete` lambda.  `response = none` models an
invalid `FHttpResponsePtr` (`Response.IsValid()` false). -/
structure HttpExchange where
  connectedSuccessfully : Bool
  response : Option FHttpResponse

/-- The HTTP request data an operation hands to the HTTP module: URL, verb and
the JSON document serialized into the POST body (`[]` when there is no body).
The source serializes the request object with `TJsonWriter` just before
sending; the model keeps the structured document. -/
structure FHttpRequestData where
  URL : String
  Verb : String
  body : FJsonObj

/-- The completion lambda bound by `FMCPClient::SendPostRequest`
(MCPClient.cpp lines 160-191) and duplicated verbatim in
`FMCPClient::SendGetRequest` (lines 203-234): `bSuccess` starts false and the
parsed response null; only when the connection succeeded, the response handle
is valid, the status code is 200 (`EHttpResponseCodes::Ok`) and the body
deserializes as a JSON object are they set to true and the parsed object. -/
def OnProcessRequestComplete (ex : HttpExchange) : Bool × Option FJsonObj :=
  match ex.connectedSuccessfully, ex.response with
  | true, some Response =>
    if Response.responseCode = 200 then
      match Response.parsedBody with
      | some JsonResponse => (true, some JsonResponse)
      | none => (false, none)
    else (false, none)
  | _, _ => (false, none)

/-- Model of `FMCPClient::SendPostRequest` (MCPClient.cpp lines 151-194): the
issued request paired with the list of continuation invocations (exactly the
one performed by the completion handler). -/
def SendPostRequest (URL : String) (JsonPayload : FJsonObj) (ex : HttpExchange) :
    FHttpRequestData × List (Bool × Option FJsonObj) :=
  (⟨URL, "POST", JsonPayload⟩, [OnProcessRequestComplete ex])

/-- Model of `FMCPClient::SendGetRequest` (MCPClient.cpp lines 196-237). -/
def SendGetRequest (URL : String) (ex : HttpExchange) :
    FHttpRequestData × List (Bool × Option FJsonObj) :=
  (⟨URL, "GET", []⟩, [OnProcessRequestComplete ex])

/-- Exhaustive case enumeration of the transport completion handler: every
exchange produces either a failure with a null body or a success carrying the
parsed JSON object. -/
theorem onProcessRequestComplete_cases (ex : HttpExchange) :
    OnProcessRequestComplete ex = (false, none) ∨
      ∃ j, OnProcessRequestComplete ex = (true, some j) := by
  rcases ex with ⟨c, r⟩
  cases c
  · left; rfl
  · cases r with
    | none => left; rfl
    | some resp =>
      by_cases hc : resp.responseCode = 200
      · cases hb : resp.parsedBody with
        | none =>
          left
          simp [OnProcessRequestComplete, hc, hb]
        | some j =>
          right
          exact ⟨j, by simp [OnProcessRequestComplete, hc, hb]⟩
      · left; simp [OnProcessRequestComplete, hc]

/-- Model of `FMCPClient::CheckConnection` (MCPClient.cpp lines 24-47): a GET
to `<ServerURL>/status`; on transport success the `status` field is compared
with "running"; otherwise a fixed failure message is delivered.  The `none`
branch under `bSuccess = true` is unreachable (the source would dereference a
null response object there) and performs no continuation call. -/
def CheckConnection (ServerURL : String) (ex : HttpExchange) :
    FHttpRequestData × List (Bool × String) :=
  let r := SendGetRequest (ServerURL ++ "/status") ex
  (r.1, r.2.flatMap fun c =>
    match c with
    | (bSuccess, Response) =>
      if bSuccess then
        match Response with
        | some respObj =>
          let Status := GetStringField respObj "status"
          if Status = "running" then
            [(true, "MCPサーバーに接続しました")]
          else
            [(false, "MCPサーバーの状態が異常です: " ++ Status)]
        | none => []
      else
        [(false, "MCPサーバーに接続できませんでした")])

/-- Model of `FMCPClient::ExecuteBlenderCommand` (MCPClient.cpp lines 49-63):
wraps the command name and parameters into the request envelope and POSTs it
to `/api/blender/command`, passing the transport continuation through. -/
def ExecuteBlenderCommand (ServerURL : String) (Command : String) (Params : FJsonObj)
    (ex : HttpExchange) : FHttpRequestData × List (Bool × Option FJsonObj) :=
  let RequestObj : FJsonObj :=
    [("command", FJsonValue.string Command), ("params", FJsonValue.object Params)]
  SendPostRequest (ServerURL ++ "/api/blender/command") RequestObj ex

/-- The asset-name computation of the `ImportAsset` response lambda
(MCPClient.cpp lines 88-97): `AssetName` starts empty and is assigned from
`result.asset_info.name` only when both nested objects are present. -/
def decodeAssetName (Response : FJsonObj) : String :=
  match TryGetObjectField Response "result" with
  | some ResultObj =>
    match TryGetObjectField ResultObj "asset_info" with
    | some AssetInfoObj => GetStringField AssetInfoObj "name"
    | none => ""
  | none => ""

/-- Model of `FMCPClient::ImportAsset` (MCPClient.cpp lines 65-106): POSTs the
`import_asset` envelope to `/api/unreal/command` and decodes
`result.asset_info.name` from a successful response. -/
def ImportAsset (ServerURL : String) (AssetPath : String) (DestinationPath : String)
    (ex : HttpExchange) : FHttpRequestData × List (Bool × String) :=
  let Params : FJsonObj :=
    [("path", FJsonValue.string AssetPath), ("destination", FJsonValue.string DestinationPath)]
  let RequestObj : FJsonObj :=
    [("command", FJsonValue.string "import_asset"), ("params", FJsonValue.object Params)]
  let r := SendPostRequest (ServerURL ++ "/api/unreal/command") RequestObj ex
  (r.1, r.2.flatMap fun c =>
    match c with
    | (bSuccess, Response) =>
      if bSuccess then
        match Response with
        | some respObj => [(true, decodeAssetName respObj)]
        | none => []
      else
        [(false, "")])

/-- Model of `FMCPClient::SetGameMode` (MCPClient.cpp lines 108-130): POSTs
the `set_game_mode` envelope; the continuation receives the transport success
flag. -/
def SetGameMode (ServerURL : String) (GameModePath : String) (ex : HttpExchange) :
    FHttpRequestData × List Bool :=
  let Params : FJsonObj := [("game_mode", FJsonValue.string GameModePath)]
  let RequestObj : FJsonObj :=
    [("command", FJsonValue.string "set_game_mode"), ("params", FJsonValue.object Params)]
  let r := SendPostRequest (ServerURL ++ "/api/unreal/command") RequestObj ex
  (r.1, r.2.flatMap fun c => [c.1])

/-- Model of `FMCPClient::SaveLevel` (MCPClient.cpp lines 132-149): POSTs the
`save_level` envelope with an empty parameter object; the continuation
receives the transport success flag. -/
def SaveLevel (ServerURL : String) (ex : HttpExchange) :
    FHttpRequestData × List Bool :=
  let RequestObj : FJsonObj :=
    [("command", FJsonValue.string "save_level"), ("params", FJsonValue.object [])]
  let r := SendPostRequest (ServerURL ++ "/api/unreal/command") RequestObj ex
  (r.1, r.2.flatMap fun c => [c.1])

/-- Model of the `FMCPAssetImportResult` struct (MCPAssetManager.h): the
constructor sets `bSuccess = false`; the `FString` fields default to empty. -/
structure FMCPAssetImportResult where
  bSuccess : Bool
  AssetPath : String
  AssetName : String
  ErrorMessage : String
deriving Repr, DecidableEq

/-- Modelled from the spec: the engine's `FString` path-join operator `/` used
at MCPAssetManager.cpp line 84 is not part of this repository; the spec states
that `assetPath` is formed as `<destinationPath>/<assetName>`, i.e. the two
components joined by a single slash. -/
def fstringPathJoin (Lhs : String) (Rhs : String) : String :=
  Lhs ++ "/" ++ Rhs

/-- Model of `UMCPAssetManager::ImportBlenderModel` (MCPAssetManager.cpp lines
72-105): delegates to `ImportAsset` and wraps each continuation value in an
`FMCPAssetImportResult`.  On success the asset-registry query the source
performs is observational only (it feeds a log line) and does not affect the
delivered result. -/
def ImportBlenderModel (ServerURL : String) (ModelPath : String)
    (DestinationPath : String) (ex : HttpExchange) :
    FHttpRequestData × List FMCPAssetImportResult :=
  let r := ImportAsset ServerURL ModelPath DestinationPath ex
  (r.1, r.2.flatMap fun c =>
    match c with
    | (bSuccess, AssetName) =>
      if bSuccess then
        [{ bSuccess := true, AssetName := AssetName,
           AssetPath := fstringPathJoin DestinationPath AssetName, ErrorMessage := "" }]
      else
        [{ bSuccess := false, AssetName := "", AssetPath := "",
           ErrorMessage := "アセットのインポートに失敗しました: " ++ ModelPath }])

/-- Model of `UMCPAssetManager::CheckServerConnection` (MCPAssetManager.cpp
lines 67-70): a plain delegation to the client's `CheckConnection` with the
caller's continuation. -/
def CheckServerConnection (ServerURL : String) (ex : HttpExchange) :
    FHttpRequestData × List (Bool × String) :=
  CheckConnection ServerURL ex

/-- The `ServerURL` installed by the `FMCPClient` constructor (MCPClient.cpp
line 7). -/
def defaultServerURL : String := "http://127.0.0.1:8080"

/-- Environment of one `Initialize` run: whether the config file
`<ProjectConfigDir>/mcp_settings.json` exists (`FPaths::FileExists`), whether
`FFileHelper::LoadFileToString` succeeds, and the JSON parse result of the
loaded content (`some o` exactly when `FJsonSerializer::Deserialize` yields a
top-level object `o`). -/
structure ConfigEnv where
  fileExists : Bool
  loadOk : Bool
  parsed : Option FJsonObj

/-- Mutable state of the `UMCPAssetManager` singleton that `Initialize` can
observe or change: the `bInitialized` flag and the owned client's
`ServerURL`. -/
structure ManagerState where
  bInitialized : Bool
  ServerURL : String
deriving Repr, DecidableEq

/-- Result of one `Initialize` call: the returned Bool, the state after the
call, and the number of config-file accesses (existence probe / read)
performed during the call. -/
structure InitializeResult where
  returnValue : Bool
  state : ManagerState
  configReads : Nat
deriving Repr, DecidableEq

/-- Model of `UMCPAssetManager::Initialize` (MCPAssetManager.cpp lines 33-65):
an already-initialized manager returns true immediately; otherwise the config
document is probed and, when it exists, loads and parses as JSON with a
`server` object field, the client URL is rebuilt as
`http://<server.host>:<server.port>` via `FString::Printf`; in every other
case the URL is left as it was.  The call always ends with
`bInitialized = true` and returns true. -/
def Initialize (env : ConfigEnv) (s : ManagerState) : InitializeResult :=
  if s.bInitialized then
    ⟨true, s, 0⟩
  else
    let ServerURL :=
      if env.fileExists then
        if env.loadOk then
          match env.parsed with
          | some JsonObject =>
            match TryGetObjectField JsonObject "server" with
            | some ServerObj =>
              let Host := GetStringField ServerObj "host"
              let Port := GetIntegerField ServerObj "port"
              "http://" ++ Host ++ ":" ++ toString Port
            | none => s.ServerURL
          | none => s.ServerURL
        else s.ServerURL
      else s.ServerURL
    ⟨true, ⟨true, ServerURL⟩, 1⟩

/-- Outcome of `LoadObject<UObject>` followed by the casts performed by
`PlaceAssetInLevel`: the load can fail, yield a static mesh, a blueprint
(whose `GeneratedClass` may be null), or some other object class. -/
inductive LoadedAsset where
  | loadFailed : LoadedAsset
  | staticMesh : LoadedAsset
  | blueprint : Bool → LoadedAsset
  | otherAsset : LoadedAsset
deriving Repr, DecidableEq

/-- Engine environment of one `PlaceAssetInLevel` call: the calling thread
(`IsInGameThread`), the load outcome for the requested path, whether the
editor world is available, and whether `SpawnActor` succeeds.  The source file
includes Editor.h and EditorLevelLibrary.h unconditionally, so it only
compiles in editor builds and the `WITH_EDITOR` region is always active. -/
structure EngineEnv where
  isInGameThread : Bool
  loadResult : LoadedAsset
  editorWorldAvailable : Bool
  spawnSucceeds : Bool
deriving Repr, DecidableEq

/-- Observable engine effects of a `PlaceAssetInLevel` call, in program order.
`scheduledGameThreadTask` records the `AsyncTask(ENamedThreads::GameThread,...)`
posting of a re-invocation of `PlaceAssetInLevel` with the captured arguments;
the remaining constructors are engine-state mutations performed on the calling
thread.  `V` and `R` are the vector and rotator payload types, carried through
untouched (their float components are never computed on). -/
inductive EngineEffect (V : Type) (R : Type) where
  | scheduledGameThreadTask : String → V → R → V → String → EngineEffect V R
  | spawnedStaticMeshActor : V → R → EngineEffect V R
  | setStaticMesh : EngineEffect V R
  | spawnedBlueprintActor : V → R → EngineEffect V R
  | setActorScale : V → EngineEffect V R
  | setActorLabel : String → EngineEffect V R

/-- Model of `UMCPAssetManager::PlaceAssetInLevel` (MCPAssetManager.cpp lines
107-186): off the game thread the call posts a re-invocation with the same
arguments to the game thread and returns true at once; on the game thread it
loads the asset and spawns a static-mesh actor or a blueprint-generated actor,
setting scale and (when the name is non-empty) the actor label, returning
false when any step yields nothing. -/
def PlaceAssetInLevel {V R : Type} (env : EngineEnv) (AssetPath : String)
    (Location : V) (Rotation : R) (Scale : V) (ActorName : String) :
    Bool × List (EngineEffect V R) :=
  if !env.isInGameThread then
    (true, [EngineEffect.scheduledGameThreadTask AssetPath Location Rotation Scale ActorName])
  else
    match env.loadResult with
    | LoadedAsset.loadFailed => (false, [])
    | LoadedAsset.staticMesh =>
      if env.editorWorldAvailable then
        if env.spawnSucceeds then
          (true,
            [EngineEffect.spawnedStaticMeshActor Location Rotation,
             EngineEffect.setStaticMesh, EngineEffect.setActorScale Scale] ++
              (if ActorName = "" then [] else [EngineEffect.setActorLabel ActorName]))
        else (false, [])
      else (false, [])
    | LoadedAsset.blueprint hasGeneratedClass =>
      if hasGeneratedClass then
        if env.editorWorldAvailable then
          if env.spawnSucceeds then
            (true,
              [EngineEffect.spawnedBlueprintActor Location Rotation,
               EngineEffect.setActorScale Scale] ++
                (if ActorName = "" then [] else [EngineEffect.setActorLabel ActorName]))
          else (false, [])
        else (false, [])
      else (false, [])
    | LoadedAsset.otherAsset => (false, [])

/-- C1: for every HTTP exchange issued by the Transport (SendPostRequest and
SendGetRequest, which both deliver through the same completion handler), the
continuation receives success = true iff the connection was established, the
response status code is 200 and the response body parses as a JSON object,
which is then the delivered body; in every other outcome the continuation
receives success = false together with a null parsed body. -/
theorem transport_success_iff (URL : String) (JsonPayload : FJsonObj) (ex : HttpExchange) :
    (SendPostRequest URL JsonPayload ex).2 = [OnProcessRequestComplete ex] ∧
    (SendGetRequest URL ex).2 = [OnProcessRequestComplete ex] ∧
    ((OnProcessRequestComplete ex).1 = true ↔
      ex.connectedSuccessfully = true ∧
        ∃ r, ex.response = some r ∧ r.responseCode = 200 ∧
          ∃ j, r.parsedBody = some j ∧ (OnProcessRequestComplete ex).2 = some j) ∧
    ((OnProcessRequestComplete ex).1 = false → (OnProcessRequestComplete ex).2 = none) := by
  obtain ⟨c, r⟩ := ex
  refine ⟨rfl, rfl, ?_, ?_⟩
  · constructor
    · intro h
      cases c
      · simp [OnProcessRequestComplete] at h
      · cases r with
        | none => simp [OnProcessRequestComplete] at h
        | some resp =>
          by_cases hc : resp.responseCode = 200
          · cases hb : resp.parsedBody with
            | none => simp [OnProcessRequestComplete, hc, hb] at h
            | some j =>
              exact ⟨rfl, resp, rfl, hc, j, hb, by simp [OnProcessRequestComplete, hc, hb]⟩
          · simp [OnProcessRequestComplete, hc] at h
    · rintro ⟨hc, resp, hr, h200, j, hj, -⟩
      simp only at hc hr
      subst hc
      subst hr
      simp [OnProcessRequestComplete, h200, hj]
  · intro h
    rcases onProcessRequestComplete_cases ⟨c, r⟩ with hcase | ⟨j, hcase⟩
    · simp [hcase]
    · simp [hcase] at h
/-- Closed instance of `transport_success_iff`: a refused connection delivers
a null parsed body. -/
theorem transport_success_iff_witness :
    (OnProcessRequestComplete ⟨false, none⟩).2 = none :=
  (transport_success_iff "http://127.0.0.1:8080" [] ⟨false, none⟩).2.2.2 rfl

/-- C4: every asynchronous operation of the core — checkConnection, the
authoring command, importAsset, setGameMode, saveLevel, importBlenderModel
and checkServerConnection — invokes its continuation exactly once, for every
input and every transport outcome. -/
theorem continuation_invoked_exactly_once (SU Cmd GMP AP DP MP : String)
    (P : FJsonObj) (ex : HttpExchange) :
    (CheckConnection SU ex).2.length = 1 ∧
    (ExecuteBlenderCommand SU Cmd P ex).2.length = 1 ∧
    (ImportAsset SU AP DP ex).2.length = 1 ∧
    (SetGameMode SU GMP ex).2.length = 1 ∧
    (SaveLevel SU ex).2.length = 1 ∧
    (ImportBlenderModel SU MP DP ex).2.length = 1 ∧
    (CheckServerConnection SU ex).2.length = 1 := by
  rcases onProcessRequestComplete_cases ex with h | ⟨j, h⟩ <;>
    simp [CheckConnection, ExecuteBlenderCommand, ImportAsset, SetGameMode, SaveLevel,
      ImportBlenderModel, CheckServerConnection, SendPostRequest, SendGetRequest, h,
      apply_ite List.length]

/-- C3: checkConnection issues a GET to the status endpoint; on transport
success with status field "running" the continuation receives true with the
connected message, on any other status value it receives false with a message
carrying that value (as its suffix), and on transport failure it receives
false with the fixed connection-failure message. -/
theorem checkConnection_status_decoding (SU : String) (ex : HttpExchange) :
    (CheckConnection SU ex).1 = ⟨SU ++ "/status", "GET", []⟩ ∧
    (∀ j, OnProcessRequestComplete ex = (true, some j) →
      (GetStringField j "status" = "running" →
        (CheckConnection SU ex).2 = [(true, "MCPサーバーに接続しました")]) ∧
      (GetStringField j "status" ≠ "running" →
        (CheckConnection SU ex).2
          = [(false, "MCPサーバーの状態が異常です: " ++ GetStringField j "status")])) ∧
    ((OnProcessRequestComplete ex).1 = false →
      (CheckConnection SU ex).2 = [(false, "MCPサーバーに接続できませんでした")]) := by
  refine ⟨rfl, ?_, ?_⟩
  · intro j h
    constructor <;> intro hs <;>
      simp [CheckConnection, SendGetRequest, h, hs]
  · intro h
    rcases onProcessRequestComplete_cases ex with hcase | ⟨j, hcase⟩
    · simp [CheckConnection, SendGetRequest, hcase]
    · rw [hcase] at h
      simp at h
/-- Closed instance of `checkConnection_status_decoding`: a 200 response with
status "degraded" yields a failure whose message carries the value. -/
theorem checkConnection_status_decoding_witness :
    (CheckConnection "http://example.net:1234"
        ⟨true, some ⟨200, some [("status", FJsonValue.string "degraded")]⟩⟩).2
      = [(false, "MCPサーバーの状態が異常です: "
            ++ GetStringField [("status", FJsonValue.string "degraded")] "status")] :=
  ((checkConnection_status_decoding "http://example.net:1234"
      ⟨true, some ⟨200, some [("status", FJsonValue.string "degraded")]⟩⟩).2.1
    [("status", FJsonValue.string "degraded")] rfl).2 (by decide)

/-- C9: when the importAsset exchange succeeds the continuation receives
ok = true with the decoded asset name — which is the empty string whenever the
response lacks `result`, lacks `result.asset_info`, or lacks the `name` field
inside it; when the exchange fails the continuation receives (false, ""). -/
theorem importAsset_name_decoding (SU AP DP : String) (ex : HttpExchange) :
    (∀ j, OnProcessRequestComplete ex = (true, some j) →
      (ImportAsset SU AP DP ex).2 = [(true, decodeAssetName j)]) ∧
    ((OnProcessRequestComplete ex).1 = false →
      (ImportAsset SU AP DP ex).2 = [(false, "")]) ∧
    (∀ j, TryGetObjectField j "result" = none → decodeAssetName j = "") ∧
    (∀ j r, TryGetObjectField j "result" = some r →
      TryGetObjectField r "asset_info" = none → decodeAssetName j = "") ∧
    (∀ j r a, TryGetObjectField j "result" = some r →
      TryGetObjectField r "asset_info" = some a → findField a "name" = none →
      decodeAssetName j = "") := by
  refine ⟨?_, ?_, ?_, ?_, ?_⟩
  · intro j h
    simp [ImportAsset, SendPostRequest, h]
  · intro h
    rcases onProcessRequestComplete_cases ex with hcase | ⟨j, hcase⟩
    · simp [ImportAsset, SendPostRequest, hcase]
    · rw [hcase] at h
      simp at h
  · intro j h1
    simp [decodeAssetName, h1]
  · intro j r h1 h2
    simp [decodeAssetName, h1, h2]
  · intro j r a h1 h2 h3
    simp [decodeAssetName, GetStringField, h1, h2, h3]
/-- Closed instance of `importAsset_name_decoding`: a successful exchange
whose body has no result object delivers ok = true with an empty name. -/
theorem importAsset_name_decoding_witness :
    (ImportAsset "http://127.0.0.1:8080" "exports/PlayerShip.fbx" "/Game/BlenderAssets"
        ⟨true, some ⟨200, some [("ok", FJsonValue.boolean true)]⟩⟩).2
      = [(true, decodeAssetName [("ok", FJsonValue.boolean true)])] :=
  (importAsset_name_decoding "http://127.0.0.1:8080" "exports/PlayerShip.fbx"
      "/Game/BlenderAssets" ⟨true, some ⟨200, some [("ok", FJsonValue.boolean true)]⟩⟩).1
    [("ok", FJsonValue.boolean true)] rfl

/-- C2: importBlenderModel delivers, for a successful underlying import with
decoded name n, a result with success = true, assetName = n and assetPath
equal to the destination joined with n by a slash; for a failed underlying
one it delivers success = false with an empty assetPath and a non-empty
error message. -/
theorem importBlenderModel_result_shape (SU MP DP n : String) (ex : HttpExchange) :
    ((ImportAsset SU MP DP ex).2 = [(true, n)] →
      (ImportBlenderModel SU MP DP ex).2
        = [{ bSuccess := true, AssetPath := fstringPathJoin DP n,
             AssetName := n, ErrorMessage := "" }]) ∧
    ((ImportAsset SU MP DP ex).2 = [(false, "")] →
      (ImportBlenderModel SU MP DP ex).2
        = [{ bSuccess := false, AssetPath := "", AssetName := "",
             ErrorMessage := "アセットのインポートに失敗しました: " ++ MP }] ∧
      ("アセットのインポートに失敗しました: " ++ MP) ≠ "") := by
  constructor
  · intro h
    simp [ImportBlenderModel, h]
  · intro h
    refine ⟨by simp [ImportBlenderModel, h], ?_⟩
    intro hcon
    have hlen := congrArg String.length hcon
    rw [String.length_append] at hlen
    have hpos : 0 < ("アセットのインポートに失敗しました: " : String).length := by decide
    simp only [String.length_empty] at hlen
    omega
/-- Closed instance of `importBlenderModel_result_shape`: the import
happy path composes the asset path from the destination and decoded name. -/
theorem importBlenderModel_result_shape_witness :
    (ImportBlenderModel "http://127.0.0.1:8080" "exports/PlayerShip.fbx" "/Game/BlenderAssets"
        ⟨true, some ⟨200, some [("result", FJsonValue.object
          [("asset_info", FJsonValue.object [("name", FJsonValue.string "PlayerShip")])])]⟩⟩).2
      = [{ bSuccess := true,
           AssetPath := fstringPathJoin "/Game/BlenderAssets" "PlayerShip",
           AssetName := "PlayerShip", ErrorMessage := "" }] :=
  (importBlenderModel_result_shape "http://127.0.0.1:8080" "exports/PlayerShip.fbx"
      "/Game/BlenderAssets" "PlayerShip"
      ⟨true, some ⟨200, some [("result", FJsonValue.object
        [("asset_info", FJsonValue.object [("name", FJsonValue.string "PlayerShip")])])]⟩⟩).1
    (by decide)

/-- C5: every POST request body produced for the /api/unreal/command endpoint
by the provided operations carries a top-level command field equal to
"import_asset", "set_game_mode" or "save_level" respectively, with params
equal to the path/destination pair, the game_mode singleton, or the empty
object. -/
theorem unreal_command_payloads (SU AP DP GMP : String) (ex : HttpExchange) :
    ((ImportAsset SU AP DP ex).1.URL = SU ++ "/api/unreal/command" ∧
      (ImportAsset SU AP DP ex).1.Verb = "POST" ∧
      GetStringField (ImportAsset SU AP DP ex).1.body "command" = "import_asset" ∧
      TryGetObjectField (ImportAsset SU AP DP ex).1.body "params"
        = some [("path", FJsonValue.string AP), ("destination", FJsonValue.string DP)]) ∧
    ((SetGameMode SU GMP ex).1.URL = SU ++ "/api/unreal/command" ∧
      (SetGameMode SU GMP ex).1.Verb = "POST" ∧
      GetStringField (SetGameMode SU GMP ex).1.body "command" = "set_game_mode" ∧
      TryGetObjectField (SetGameMode SU GMP ex).1.body "params"
        = some [("game_mode", FJsonValue.string GMP)]) ∧
    ((SaveLevel SU ex).1.URL = SU ++ "/api/unreal/command" ∧
      (SaveLevel SU ex).1.Verb = "POST" ∧
      GetStringField (SaveLevel SU ex).1.body "command" = "save_level" ∧
      TryGetObjectField (SaveLevel SU ex).1.body "params" = some []) := by
  refine ⟨⟨rfl, rfl, ?_, ?_⟩, ⟨rfl, rfl, ?_, ?_⟩, rfl, rfl, ?_, ?_⟩ <;>
    simp [ImportAsset, SetGameMode, SaveLevel, SendPostRequest,
      GetStringField, TryGetObjectField, findField]

/-- C6: with a missing or malformed configuration file the client URL stays
at the default origin http://127.0.0.1:8080; with a present, parseable file
whose server object yields host h and port p the URL becomes http://h:p; in
either case every request of the client targets that URL extended with the
operation's endpoint path. -/
theorem initialize_config_url (env : ConfigEnv) (host : String) (port : Int)
    (obj srv : FJsonObj) :
    ((env.fileExists = false ∨ env.loadOk = false ∨ env.parsed = none) →
      (Initialize env ⟨false, defaultServerURL⟩).state.ServerURL = defaultServerURL) ∧
    (env.fileExists = true → env.loadOk = true → env.parsed = some obj →
      TryGetObjectField obj "server" = some srv →
      GetStringField srv "host" = host → GetIntegerField srv "port" = port →
      (Initialize env ⟨false, defaultServerURL⟩).state.ServerURL
        = "http://" ++ host ++ ":" ++ toString port) ∧
    (∀ u AP DP ex, (CheckConnection u ex).1.URL = u ++ "/status" ∧
      (ImportAsset u AP DP ex).1.URL = u ++ "/api/unreal/command" ∧
      (SetGameMode u AP ex).1.URL = u ++ "/api/unreal/command" ∧
      (SaveLevel u ex).1.URL = u ++ "/api/unreal/command") := by
  refine ⟨?_, ?_, ?_⟩
  · intro h
    rcases h with h | h | h <;> simp [Initialize, h]
  · intro hfe hlo hpa hsrv hhost hport
    simp [Initialize, hfe, hlo, hpa, hsrv, hhost, hport]
  · intro u AP DP ex
    exact ⟨rfl, rfl, rfl, rfl⟩
/-- Closed instance of `initialize_config_url`: the config override of the
spec example installs http://example.net:1234. -/
theorem initialize_config_url_witness :
    (Initialize
        ⟨true, true, some [("server", FJsonValue.object
          [("host", FJsonValue.string "example.net"), ("port", FJsonValue.number 1234)])]⟩
        ⟨false, defaultServerURL⟩).state.ServerURL
      = "http://" ++ "example.net" ++ ":" ++ toString (1234 : Int) :=
  (initialize_config_url
      ⟨true, true, some [("server", FJsonValue.object
        [("host", FJsonValue.string "example.net"), ("port", FJsonValue.number 1234)])]⟩
      "example.net" 1234
      [("server", FJsonValue.object
        [("host", FJsonValue.string "example.net"), ("port", FJsonValue.number 1234)])]
      [("host", FJsonValue.string "example.net"), ("port", FJsonValue.number 1234)]).2.1
    rfl rfl rfl rfl (by decide) (by decide)

/-- C10: when the parsed configuration contains a server object, the client
URL is rebuilt from whatever the host and port field reads yield; with both
fields absent the reads yield "" and 0, producing "http://:0" rather than
leaving the default http://127.0.0.1:8080 in place. -/
theorem initialize_rebuilds_from_server_fields (env : ConfigEnv) (obj srv : FJsonObj) :
    (env.fileExists = true → env.loadOk = true → env.parsed = some obj →
      TryGetObjectField obj "server" = some srv →
      (Initialize env ⟨false, defaultServerURL⟩).state.ServerURL
        = "http://" ++ GetStringField srv "host" ++ ":"
            ++ toString (GetIntegerField srv "port")) ∧
    (findField srv "host" = none → GetStringField srv "host" = "") ∧
    (findField srv "port" = none → GetIntegerField srv "port" = 0) ∧
    "http://" ++ "" ++ ":" ++ toString (0 : Int) = "http://:0" ∧
    "http://:0" ≠ defaultServerURL := by
  refine ⟨?_, ?_, ?_, by decide, by decide⟩
  · intro hfe hlo hpa hsrv
    simp [Initialize, hfe, hlo, hpa, hsrv]
  · intro h
    simp [GetStringField, h]
  · intro h
    simp [GetIntegerField, h]
/-- Closed instance of `initialize_rebuilds_from_server_fields`: a config
whose server object is empty produces the URL with empty host and port 0. -/
theorem initialize_rebuilds_from_server_fields_witness :
    (Initialize ⟨true, true, some [("server", FJsonValue.object [])]⟩
        ⟨false, defaultServerURL⟩).state.ServerURL
      = "http://" ++ GetStringField [] "host" ++ ":" ++ toString (GetIntegerField [] "port") :=
  (initialize_rebuilds_from_server_fields
      ⟨true, true, some [("server", FJsonValue.object [])]⟩
      [("server", FJsonValue.object [])] []).1 rfl rfl rfl rfl

/-- C7: a placeAssetInLevel call made off the engine's game thread returns
true immediately, and its only effect is to post a re-invocation of the same
operation with the same arguments to the game thread — no engine-state
mutation happens on the calling worker thread. -/
theorem placeAssetInLevel_worker_thread (V R : Type) (env : EngineEnv)
    (AssetPath : String) (Location : V) (Rotation : R) (Scale : V) (ActorName : String)
    (h : env.isInGameThread = false) :
    PlaceAssetInLevel env AssetPath Location Rotation Scale ActorName
      = (true, [EngineEffect.scheduledGameThreadTask AssetPath Location Rotation Scale
          ActorName]) := by
  simp [PlaceAssetInLevel, h]
/-- Closed instance of `placeAssetInLevel_worker_thread` at concrete engine
state and arguments. -/
theorem placeAssetInLevel_worker_thread_witness :
    PlaceAssetInLevel ⟨false, LoadedAsset.loadFailed, false, false⟩
        "/Game/BlenderAssets/PlayerShip" () () () "Ship"
      = (true, [EngineEffect.scheduledGameThreadTask "/Game/BlenderAssets/PlayerShip"
          () () () "Ship"]) :=
  placeAssetInLevel_worker_thread Unit Unit ⟨false, LoadedAsset.loadFailed, false, false⟩
    "/Game/BlenderAssets/PlayerShip" () () () "Ship" rfl

/-- C8: Initialize is idempotent — on an already-initialized manager it
returns true with no config access and an unchanged state (hence an unchanged
client URL); a first call performs the config access, returns true and marks
the manager initialized, and any later call leaves that state untouched. -/
theorem initialize_idempotent (env env2 : ConfigEnv) (s : ManagerState) :
    (s.bInitialized = true → Initialize env2 s = ⟨true, s, 0⟩) ∧
    (s.bInitialized = false →
      (Initialize env s).returnValue = true ∧
      (Initialize env s).state.bInitialized = true ∧
      (Initialize env s).configReads = 1 ∧
      Initialize env2 (Initialize env s).state
        = ⟨true, (Initialize env s).state, 0⟩) := by
  constructor
  · intro h
    simp [Initialize, h]
  · intro h
    refine ⟨?_, ?_, ?_, ?_⟩ <;> simp [Initialize, h]
/-- Closed instance of `initialize_idempotent`: re-entry on an initialized
manager returns true, reads nothing and keeps the state. -/
theorem initialize_idempotent_witness :
    Initialize ⟨true, true, some []⟩ ⟨true, defaultServerURL⟩
      = ⟨true, ⟨true, defaultServerURL⟩, 0⟩ :=
  (initialize_idempotent ⟨false, false, none⟩ ⟨true, true, some []⟩
      ⟨true, defaultServerURL⟩).1 rfl

end MCP
